import Mathlib

set_option maxHeartbeats 1000000
set_option maxRecDepth 100000

/-!
Shallow embedding of the books-app repository: the data model
(src/types/book.ts), the API clients and error classifier
(src/app/search.tsx, the BookDetailScreen module), the debounced
query controller, and the thumbnail URL upgrade logic.
-/

/-- Image links record (src/types/book.ts, BookImageLinks). -/
structure BookImageLinks where
  thumbnail : Option String := none
  smallThumbnail : Option String := none
  small : Option String := none
  medium : Option String := none
  large : Option String := none
  deriving DecidableEq, Repr

/-- Volume info record (src/types/book.ts, BookVolumeInfo). The JS number
    field averageRating is only carried around, never computed with, so it is
    embedded as a rational. -/
structure BookVolumeInfo where
  title : String
  authors : Option (List String) := none
  averageRating : Option ℚ := none
  description : Option String := none
  imageLinks : Option BookImageLinks := none
  deriving DecidableEq, Repr

/-- Book record (src/types/book.ts, Book). -/
structure Book where
  id : String
  volumeInfo : BookVolumeInfo
  deriving DecidableEq, Repr

/-- A JavaScript exception value as observed by the catch blocks: whether it
    is a TypeError, whether it is an Error at all (in JS a TypeError is also
    an Error), and its message string. -/
structure JSError where
  isTypeError : Bool
  isError : Bool
  message : String
  deriving DecidableEq, Repr

/-- JS String.prototype.startsWith over the character sequence. -/
def jsStartsWith (s pat : String) : Bool :=
  pat.data.isPrefixOf s.data

/-- Substring containment over character lists (the semantics of JS
    String.prototype.includes). -/
def charsContain (pat : List Char) : List Char → Bool
  | [] => pat.isEmpty
  | c :: cs => pat.isPrefixOf (c :: cs) || charsContain pat cs

/-- JS String.prototype.includes. -/
def jsIncludes (s pat : String) : Bool :=
  charsContain pat.data s.data

/-- JS String.prototype.trim: strip whitespace from both ends of the
    character sequence. -/
def jsTrim (s : String) : String :=
  ⟨((s.data.dropWhile Char.isWhitespace).reverse.dropWhile Char.isWhitespace).reverse⟩

def connectivityMsg : String :=
  "Unable to connect. Check your internet connection and try again."

def rateLimitMsg : String :=
  "Too many requests. Please try again in a moment."

def serverErrorMsg : String :=
  "Something went wrong on our end. Please try again later."

def searchClientErrorMsg : String :=
  "Request failed. Please check your connection and try again."

def bookClientErrorMsg : String :=
  "Book could not be loaded. Please try again."

def fallbackMsg : String :=
  "Something went wrong. Please try again."

/-- The not-found message synthesized by BookDetailScreen at its call site. -/
def notFoundMsg : String :=
  "Book not found. It may have been removed or the link is invalid."

/-- getApiErrorMessage as defined in src/app/search.tsx (lines 23-33):
    connectivity check first, then the Error branch with the prefix checks for
    429, 5xx, 4xx in that order, else the generic fallback. -/
def getApiErrorMessageSearch (error : JSError) : String :=
  if error.isTypeError && jsIncludes error.message "fetch" then
    connectivityMsg
  else if error.isError then
    if jsStartsWith error.message "API error: 429" then rateLimitMsg
    else if jsStartsWith error.message "API error: 5" then serverErrorMsg
    else if jsStartsWith error.message "API error: 4" then searchClientErrorMsg
    else fallbackMsg
  else fallbackMsg

/-- getApiErrorMessage as defined in the BookDetailScreen module (lines 19-29);
    identical to the search-site copy except for the 4xx message. -/
def getApiErrorMessageBook (error : JSError) : String :=
  if error.isTypeError && jsIncludes error.message "fetch" then
    connectivityMsg
  else if error.isError then
    if jsStartsWith error.message "API error: 429" then rateLimitMsg
    else if jsStartsWith error.message "API error: 5" then serverErrorMsg
    else if jsStartsWith error.message "API error: 4" then bookClientErrorMsg
    else fallbackMsg
  else fallbackMsg

/-- The exception thrown on a non-ok response: new Error with the message
    built from the numeric status. -/
def apiError (status : Nat) : JSError :=
  { isTypeError := false, isError := true,
    message := "API error: " ++ toString status }

/-- Outcome of a fetch call followed by res.json(): the promise may reject at
    the network layer with an exception, or resolve with ok/status flags and a
    body whose JSON parse may itself fail. -/
inductive HttpOutcome (β : Type) where
  | reject (e : JSError)
  | response (ok : Bool) (status : Nat) (body : Except JSError β)

/-- Response body shape as used by the search paths: data.items may be
    absent. -/
structure SearchBody where
  items : Option (List Book)
  deriving DecidableEq

/-- Result pair of fetchPopularBooks: data plus an optional error message. -/
structure SearchFetchResult where
  data : List Book
  error : Option String
  deriving DecidableEq

/-- Result pair of fetchBookById: an optional book plus an optional error
    message. -/
structure LookupFetchResult where
  book : Option Book
  error : Option String
  deriving DecidableEq

/-- A failure mode: the fetch rejected, the response was non-ok, or the body
    parse failed. -/
def HttpOutcome.isFailure {β : Type} : HttpOutcome β → Bool
  | .reject _ => true
  | .response ok _ body =>
    !ok || (match body with | .error _ => true | .ok _ => false)

/-- fetchPopularBooks (src/app/search.tsx lines 35-52) as a function of the
    HTTP outcome: non-ok responses throw the apiError for their status before
    the body is read, every caught exception is classified, and on success the
    item list defaults to empty when the items field is absent. The function
    is total: no outcome escapes as an exception. -/
def fetchPopularBooks (o : HttpOutcome SearchBody) : SearchFetchResult :=
  match o with
  | .reject e => { data := [], error := some (getApiErrorMessageSearch e) }
  | .response ok status body =>
    if ok then
      match body with
      | .ok d => { data := d.items.getD [], error := none }
      | .error e => { data := [], error := some (getApiErrorMessageSearch e) }
    else
      { data := [], error := some (getApiErrorMessageSearch (apiError status)) }

/-- fetchBookById (BookDetailScreen module lines 31-42) as a function of the
    HTTP outcome; the parsed body is the book value (JSON null is possible).
    The function is total: no outcome escapes as an exception. -/
def fetchBookById (o : HttpOutcome (Option Book)) : LookupFetchResult :=
  match o with
  | .reject e => { book := none, error := some (getApiErrorMessageBook e) }
  | .response ok status body =>
    if ok then
      match body with
      | .ok b => { book := b, error := none }
      | .error e => { book := none, error := some (getApiErrorMessageBook e) }
    else
      { book := none, error := some (getApiErrorMessageBook (apiError status)) }

/-- JS truthiness of an optional string: undefined and the empty string are
    falsy. -/
def jsTruthy (o : Option String) : Bool :=
  match o with
  | none => false
  | some s => decide (s ≠ "")

/-- URLSearchParams content for requests against the volumes endpoint. -/
structure VolumesRequestParams where
  q : String
  orderBy : Option String
  maxResults : String
  key : Option String
  deriving DecidableEq

/-- Request construction in fetchPopularBooks (src/app/search.tsx lines
    37-42): the query is fixed to the topic filter, ordering is by relevance,
    the result cap is 15, and the key is spread in only when truthy. -/
def popularBooksRequest (apiKey : Option String) : VolumesRequestParams :=
  { q := "subject:fiction", orderBy := some "relevance", maxResults := "15",
    key := if jsTruthy apiKey then apiKey else none }

/-- Request construction in fetchBooks (src/app/search.tsx lines 180-184):
    the caller's query trimmed, no ordering parameter, result cap 20, key
    spread in only when truthy. -/
def searchBooksRequest (apiKey : Option String) (q : String) : VolumesRequestParams :=
  { q := jsTrim q, orderBy := none, maxResults := "20",
    key := if jsTruthy apiKey then apiKey else none }

/-- The network search calls issued by the debounce effect
    (src/app/search.tsx lines 162-169) over a time-ordered keystroke
    sequence, each keystroke being (time, full text after it). A keystroke
    with non-blank trimmed text schedules fetchBooks with that text at
    time+400; the cleanup run by the next keystroke clears the timer, so the
    scheduled call fires only if the next keystroke does not arrive before
    the timer does. A keystroke with blank trimmed text schedules nothing. -/
def debounceCalls : List (Nat × String) → List (Nat × String)
  | [] => []
  | [(t, s)] => if jsTrim s = "" then [] else [(t + 400, s)]
  | (t, s) :: (t2, s2) :: rest =>
    (if jsTrim s = "" ∨ t2 < t + 400 then [] else [(t + 400, s)]) ++
      debounceCalls ((t2, s2) :: rest)

/-- Consecutive keystrokes each arrive strictly less than 400 time units
    after the previous one. -/
def rapid : List (Nat × String) → Prop
  | (t, _) :: (t2, s2) :: rest => t2 < t + 400 ∧ rapid ((t2, s2) :: rest)
  | _ => True

/-- The part of the Search screen state the debounce effect touches. -/
structure DebounceState where
  books : List Book
  timer : Option (Nat × String)
  deriving DecidableEq

/-- One run of the debounce effect (src/app/search.tsx lines 162-169)
    together with the cleanup of the previous run: the pending timer is
    cleared; with blank trimmed text the results are cleared and no timer is
    set; otherwise a timer for fetchBooks with the current query is scheduled
    400 units from now. -/
def debounceEffectStep (st : DebounceState) (now : Nat) (query : String) : DebounceState :=
  if jsTrim query = "" then { books := [], timer := none }
  else { st with timer := some (now + 400, query) }

/-- Externally observable Search screen state for the fetchBooks path. -/
structure SearchScreenState where
  query : String
  books : List Book
  errorSearch : Option String
  loading : Bool
  deriving DecidableEq

/-- fetchBooks before its await (src/app/search.tsx lines 177-178). -/
def fetchBooksStart (st : SearchScreenState) : SearchScreenState :=
  { st with errorSearch := none, loading := true }

/-- Application of a resolved fetchBooks call to the Search screen state
    (src/app/search.tsx lines 186-196). No cancellation flag exists on this
    path: the result is applied to state unconditionally. -/
def fetchBooksResolve (st : SearchScreenState) (o : HttpOutcome SearchBody) : SearchScreenState :=
  match o with
  | .reject e =>
    { st with
      books := [],
      errorSearch := some (getApiErrorMessageSearch e), loading := false }
  | .response ok status body =>
    if ok then
      match body with
      | .ok d => { st with books := d.items.getD [], loading := false }
      | .error e =>
        { st with
          books := [],
          errorSearch := some (getApiErrorMessageSearch e), loading := false }
    else
      { st with
        books := [],
        errorSearch := some (getApiErrorMessageSearch (apiError status)),
        loading := false }

/-- Popular-books section of the Search screen state. -/
structure PopularSectionState where
  popularBooks : List Book
  errorPopular : Option String
  loadingPopular : Bool
  deriving DecidableEq

/-- Resolution handler of the popular-books mount effect (src/app/search.tsx
    lines 150-157): state is mutated only while the closure-captured
    cancelled flag, set to true by the effect cleanup, is still false. -/
def popularEffectResolve (cancelled : Bool) (st : PopularSectionState)
    (r : SearchFetchResult) : PopularSectionState :=
  if cancelled then st
  else { popularBooks := r.data, errorPopular := r.error, loadingPopular := false }

/-- Externally observable Detail screen state for the lookup path. -/
structure DetailScreenState where
  fetched : Option Book
  fetchError : Option String
  loading : Bool
  deriving DecidableEq

/-- Resolution handler of BookDetailScreen's lookup effect (lines 93-99 of
    its module): guarded by the closure-captured cancelled flag; when a null
    book arrives with a null error, the caller synthesizes the not-found
    message. -/
def detailEffectResolve (cancelled : Bool) (st : DetailScreenState)
    (r : LookupFetchResult) : DetailScreenState :=
  if cancelled then st
  else
    { fetched := r.book,
      fetchError :=
        match r.error with
        | some e => some e
        | none => if r.book.isSome then none else some notFoundMsg,
      loading := false }

/-- First-occurrence replacement over character lists: the semantics of JS
    String.prototype.replace with a string pattern (only the first match is
    replaced; with an empty pattern the replacement is prepended). -/
def replaceFirstAux (pat rep : List Char) : List Char → List Char
  | [] => if pat.isEmpty then rep else []
  | c :: cs =>
    if pat.isPrefixOf (c :: cs) then rep ++ (c :: cs).drop pat.length
    else c :: replaceFirstAux pat rep cs

/-- JS String.prototype.replace with a string pattern. -/
def jsReplaceFirst (s pat rep : String) : String :=
  ⟨replaceFirstAux pat.data rep.data s.data⟩

/-- JS logical-or on optional strings: the first operand wins when truthy. -/
def jsOr (a b : Option String) : Option String :=
  if jsTruthy a then a else b

/-- Thumbnail selection in BookRow (src/app/search.tsx lines 85-87):
    thumbnail, else smallThumbnail, each with http upgraded to https. -/
def bookRowThumbnail (v : BookVolumeInfo) : Option String :=
  jsOr
    ((v.imageLinks.bind BookImageLinks.thumbnail).map
      (fun u => jsReplaceFirst u "http://" "https://"))
    ((v.imageLinks.bind BookImageLinks.smallThumbnail).map
      (fun u => jsReplaceFirst u "http://" "https://"))

/-- The uri handed to the Image renderer in BookRow: the selected thumbnail
    is rendered only when truthy, else the placeholder is shown
    (src/app/search.tsx lines 95-101). -/
def bookRowImageUrl (v : BookVolumeInfo) : Option String :=
  if jsTruthy (bookRowThumbnail v) then bookRowThumbnail v else none

/-- The nullish-coalescing thumbnail chain on the Detail screen when no
    navigation params are present (line 108 of its module). -/
def detailThumbnail (info : BookVolumeInfo) : Option String :=
  ((((info.imageLinks.bind BookImageLinks.thumbnail).or
    (info.imageLinks.bind BookImageLinks.smallThumbnail)).or
    (info.imageLinks.bind BookImageLinks.small)).or
    (info.imageLinks.bind BookImageLinks.medium)).or
    (info.imageLinks.bind BookImageLinks.large)

/-- imageUrl on the Detail screen (line 112 of its module). -/
def detailImageUrl (info : BookVolumeInfo) : Option String :=
  (detailThumbnail info).map (fun u => jsReplaceFirst u "http://" "https://")

/-- The uri handed to the Image renderer on the Detail screen: rendered only
    when truthy, else the placeholder (lines 170-176 of its module). -/
def detailDisplayedImageUrl (info : BookVolumeInfo) : Option String :=
  if jsTruthy (detailImageUrl info) then detailImageUrl info else none

/-- A concrete book used by counterexamples and witnesses. -/
def exBook : Book :=
  { id := "1",
    volumeInfo := { title := "Test Book", authors := some ["Author"] } }

/-- Search screen state used by the C1 counterexample: the user has already
    typed a newer query. -/
def exStaleState : SearchScreenState :=
  { query := "new", books := [], errorSearch := none, loading := true }

/-- A successful outcome of the older, superseded call. -/
def exStaleOutcome : HttpOutcome SearchBody :=
  .response true 200 (.ok { items := some [exBook] })

/-! ## Helper lemmas -/

/-- The search-site classifier only ever returns one of its five message
    literals. -/
theorem getApiErrorMessageSearch_cases (e : JSError) :
    getApiErrorMessageSearch e = connectivityMsg ∨
    getApiErrorMessageSearch e = rateLimitMsg ∨
    getApiErrorMessageSearch e = serverErrorMsg ∨
    getApiErrorMessageSearch e = searchClientErrorMsg ∨
    getApiErrorMessageSearch e = fallbackMsg := by
  unfold getApiErrorMessageSearch
  repeat' split
  all_goals simp

/-- The lookup-site classifier only ever returns one of its five message
    literals. -/
theorem getApiErrorMessageBook_cases (e : JSError) :
    getApiErrorMessageBook e = connectivityMsg ∨
    getApiErrorMessageBook e = rateLimitMsg ∨
    getApiErrorMessageBook e = serverErrorMsg ∨
    getApiErrorMessageBook e = bookClientErrorMsg ∨
    getApiErrorMessageBook e = fallbackMsg := by
  unfold getApiErrorMessageBook
  repeat' split
  all_goals simp

/-- On any failure outcome, fetchPopularBooks yields an empty list and a
    classified message. -/
theorem fetchPopularBooks_failure (o : HttpOutcome SearchBody)
    (ho : o.isFailure = true) :
    (fetchPopularBooks o).data = [] ∧
    ∃ m, (fetchPopularBooks o).error = some m ∧
      (m = connectivityMsg ∨ m = rateLimitMsg ∨ m = serverErrorMsg ∨
        m = searchClientErrorMsg ∨ m = fallbackMsg) := by
  cases o with
  | reject e =>
    exact ⟨rfl, getApiErrorMessageSearch e, rfl, getApiErrorMessageSearch_cases e⟩
  | response ok status body =>
    cases ok with
    | false =>
      exact ⟨rfl, getApiErrorMessageSearch (apiError status), rfl,
        getApiErrorMessageSearch_cases _⟩
    | true =>
      cases body with
      | error e =>
        exact ⟨rfl, getApiErrorMessageSearch e, rfl, getApiErrorMessageSearch_cases e⟩
      | ok d => simp [HttpOutcome.isFailure] at ho

/-- On any failure outcome, fetchBookById yields a null book and a classified
    message. -/
theorem fetchBookById_failure (p : HttpOutcome (Option Book))
    (hp : p.isFailure = true) :
    (fetchBookById p).book = none ∧
    ∃ m, (fetchBookById p).error = some m ∧
      (m = connectivityMsg ∨ m = rateLimitMsg ∨ m = serverErrorMsg ∨
        m = bookClientErrorMsg ∨ m = fallbackMsg) := by
  cases p with
  | reject e =>
    exact ⟨rfl, getApiErrorMessageBook e, rfl, getApiErrorMessageBook_cases e⟩
  | response ok status body =>
    cases ok with
    | false =>
      exact ⟨rfl, getApiErrorMessageBook (apiError status), rfl,
        getApiErrorMessageBook_cases _⟩
    | true =>
      cases body with
      | error e =>
        exact ⟨rfl, getApiErrorMessageBook e, rfl, getApiErrorMessageBook_cases e⟩
      | ok b => simp [HttpOutcome.isFailure] at hp

/-- The lookup classifier never yields the not-found message; that literal is
    synthesized only by the Detail screen caller. -/
theorem getApiErrorMessageBook_ne_notFound (e : JSError) :
    getApiErrorMessageBook e ≠ notFoundMsg := by
  rcases getApiErrorMessageBook_cases e with h | h | h | h | h <;> rw [h] <;> decide

/-- (a ++ b).data is a.data ++ b.data. -/
theorem string_data_append (a b : String) : (a ++ b).data = a.data ++ b.data := by
  obtain ⟨x⟩ := a
  obtain ⟨y⟩ := b
  rfl

/-- Replacing the first occurrence of a non-empty pattern in a string that
    starts with that pattern yields the replacement followed by the rest. -/
theorem replaceFirstAux_append (pat rep l : List Char) (h : pat ≠ []) :
    replaceFirstAux pat rep (pat ++ l) = rep ++ l := by
  cases pat with
  | nil => exact absurd rfl h
  | cons p pt =>
    have hpre : (p :: pt).isPrefixOf (p :: (pt ++ l)) = true := by
      rw [List.isPrefixOf_iff_prefix]
      exact List.prefix_append (p :: pt) l
    simp [replaceFirstAux, hpre, List.drop_left]

/-- The JS replace of http by https on a URL that starts with http. -/
theorem jsReplaceFirst_http (rest : String) :
    jsReplaceFirst ("http://" ++ rest) "http://" "https://" = "https://" ++ rest := by
  obtain ⟨m⟩ := rest
  have h1 : ("http://" ++ String.mk m).data = "http://".data ++ m :=
    string_data_append _ _
  have h3 : replaceFirstAux "http://".data "https://".data ("http://".data ++ m) =
      "https://".data ++ m :=
    replaceFirstAux_append "http://".data "https://".data m (by decide)
  unfold jsReplaceFirst
  rw [h1, h3]
  exact String.ext (string_data_append "https://" (String.mk m)).symm

/-- An https URL is never the empty string. -/
theorem https_ne_empty (r : String) : "https://" ++ r ≠ "" := by
  intro h
  have h2 : "https://".data ++ r.data = [] := by
    rw [← string_data_append, h]
  rcases List.append_eq_nil.mp h2 with ⟨h3, _⟩
  exact absurd h3 (by decide)

/-- The upgraded thumbnail is truthy. -/
theorem jsTruthy_https (r : String) : jsTruthy (some ("https://" ++ r)) = true := by
  unfold jsTruthy
  rw [decide_eq_true_eq]
  exact https_ne_empty r

/-! ## Claim theorems -/

/-- Claim C2: for HTTP statuses captured as API errors, the classifier
    returns the rate-limit message for 429, the server-error message on all
    of [500,600), and the call-site-specific client-error message on all of
    [400,500) except 429, at both the search and the lookup call sites; the
    connectivity branch is checked before the status branches (last
    conjunct: a TypeError mentioning fetch wins over an API error 429
    message). -/
theorem apiStatusClassification :
    (∀ s : Nat, s < 600 → 500 ≤ s →
      getApiErrorMessageSearch (apiError s) = serverErrorMsg ∧
      getApiErrorMessageBook (apiError s) = serverErrorMsg) ∧
    (∀ s : Nat, s < 500 → 400 ≤ s → s ≠ 429 →
      getApiErrorMessageSearch (apiError s) = searchClientErrorMsg ∧
      getApiErrorMessageBook (apiError s) = bookClientErrorMsg) ∧
    (getApiErrorMessageSearch (apiError 429) = rateLimitMsg ∧
      getApiErrorMessageBook (apiError 429) = rateLimitMsg) ∧
    getApiErrorMessageSearch
      { isTypeError := true, isError := true, message := "API error: 429 fetch" } =
      connectivityMsg := by
  decide

/-- Witness for C2 at concrete statuses 503 and 404. -/
theorem apiStatusClassification_witness :
    getApiErrorMessageSearch (apiError 503) = serverErrorMsg ∧
    getApiErrorMessageBook (apiError 404) = bookClientErrorMsg :=
  ⟨(apiStatusClassification.1 503 (by decide) (by decide)).1,
   (apiStatusClassification.2.1 404 (by decide) (by decide) (by decide)).2⟩

/-- Claim C3: a transport-level connectivity exception — a TypeError whose
    message mentions fetch, the shape fetch failures take (the repository's
    own test fixture uses TypeError with message Failed to fetch) — always
    classifies to the connectivity message at both call sites, whatever else
    the message contains. -/
theorem connectivityClassification (e : JSError)
    (h1 : e.isTypeError = true) (h2 : jsIncludes e.message "fetch" = true) :
    getApiErrorMessageSearch e = connectivityMsg ∧
    getApiErrorMessageBook e = connectivityMsg := by
  unfold getApiErrorMessageSearch getApiErrorMessageBook
  rw [h1, h2]
  simp

/-- Witness for C3 at the test fixture error. -/
theorem connectivityClassification_witness :
    getApiErrorMessageSearch
      { isTypeError := true, isError := true, message := "Failed to fetch" } =
      connectivityMsg :=
  (connectivityClassification
    { isTypeError := true, isError := true, message := "Failed to fetch" }
    rfl (by decide)).1

/-- Claim C9: the user-search request fixes the result cap to 20 and carries
    the caller's trimmed free-text query with no ordering parameter, while
    the popularity variant fixes the cap to 15, the query to the constant
    topic filter, and orders by relevance. -/
theorem requestShapes (apiKey : Option String) (q : String) :
    (searchBooksRequest apiKey q).maxResults = "20" ∧
    (searchBooksRequest apiKey q).q = jsTrim q ∧
    (searchBooksRequest apiKey q).orderBy = none ∧
    (popularBooksRequest apiKey).maxResults = "15" ∧
    (popularBooksRequest apiKey).q = "subject:fiction" ∧
    (popularBooksRequest apiKey).orderBy = some "relevance" := by
  simp [searchBooksRequest, popularBooksRequest]

/-- Claim C6: a successful response with zero items or with the items field
    absent yields an empty list and a null error, both from fetchPopularBooks
    and through the fetchBooks state path (where the in-screen search leaves
    an empty book list, no error message and loading off). -/
theorem emptyItemsIsNotError (status : Nat) (b : SearchBody) (st : SearchScreenState)
    (h : b.items = none ∨ b.items = some []) :
    fetchPopularBooks (.response true status (.ok b)) = { data := [], error := none } ∧
    fetchBooksResolve (fetchBooksStart st) (.response true status (.ok b)) =
      { query := st.query, books := [], errorSearch := none, loading := false } := by
  rcases h with h | h <;>
    simp [fetchPopularBooks, fetchBooksResolve, fetchBooksStart, h]

/-- Witness for C6 with a missing items field. -/
theorem emptyItemsIsNotError_witness :
    fetchPopularBooks (.response true 200 (.ok { items := none })) =
      { data := [], error := none } :=
  (emptyItemsIsNotError 200 { items := none }
    { query := "q", books := [exBook], errorSearch := none, loading := false }
    (Or.inl rfl)).1


/-- Claim C5: neither client lets a failure escape its boundary — both are
    total functions of the outcome — and on every failure mode (network
    rejection, non-ok status, body-parse failure) fetchPopularBooks returns
    an empty list paired with a classified message and fetchBookById returns
    a null book paired with a classified message. -/
theorem clientBoundaryOnFailure (o : HttpOutcome SearchBody)
    (p : HttpOutcome (Option Book))
    (ho : o.isFailure = true) (hp : p.isFailure = true) :
    (fetchPopularBooks o).data = [] ∧
    (∃ m, (fetchPopularBooks o).error = some m ∧
      (m = connectivityMsg ∨ m = rateLimitMsg ∨ m = serverErrorMsg ∨
        m = searchClientErrorMsg ∨ m = fallbackMsg)) ∧
    (fetchBookById p).book = none ∧
    (∃ m, (fetchBookById p).error = some m ∧
      (m = connectivityMsg ∨ m = rateLimitMsg ∨ m = serverErrorMsg ∨
        m = bookClientErrorMsg ∨ m = fallbackMsg)) :=
  ⟨(fetchPopularBooks_failure o ho).1, (fetchPopularBooks_failure o ho).2,
   (fetchBookById_failure p hp).1, (fetchBookById_failure p hp).2⟩

/-- Witness for C5: a connectivity rejection on the search side and a 404 on
    the lookup side. -/
theorem clientBoundaryOnFailure_witness :
    (fetchPopularBooks
      (.reject { isTypeError := true, isError := true, message := "Failed to fetch" })).data = [] ∧
    (fetchBookById (.response false 404 (.ok none))).book = none :=
  ⟨(clientBoundaryOnFailure
      (.reject { isTypeError := true, isError := true, message := "Failed to fetch" })
      (.response false 404 (.ok none)) rfl rfl).1,
   (clientBoundaryOnFailure
      (.reject { isTypeError := true, isError := true, message := "Failed to fetch" })
      (.response false 404 (.ok none)) rfl rfl).2.2.1⟩

/-- Claim C7: a populated payload never coexists with a populated error in
    either client's result; the lookup client never emits the not-found
    message (it reports errors only for transport or HTTP failures); the
    Detail screen caller synthesizes the not-found message exactly when a
    null book arrives with a null error, and passes a client error message
    through unchanged. -/
theorem fetchResultExclusivity (o : HttpOutcome SearchBody)
    (p : HttpOutcome (Option Book)) (st : DetailScreenState)
    (r : LookupFetchResult) :
    ((fetchPopularBooks o).data ≠ [] → (fetchPopularBooks o).error = none) ∧
    ((fetchBookById p).book.isSome = true → (fetchBookById p).error = none) ∧
    (fetchBookById p).error ≠ some notFoundMsg ∧
    detailEffectResolve false st { book := none, error := none } =
      { fetched := none, fetchError := some notFoundMsg, loading := false } ∧
    (∀ m, r.error = some m →
      (detailEffectResolve false st r).fetchError = some m) := by
  refine ⟨?_, ?_, ?_, by simp [detailEffectResolve], ?_⟩
  · cases o with
    | reject e => intro h; exact absurd rfl h
    | response ok status body =>
      cases ok with
      | false => intro h; exact absurd rfl h
      | true =>
        cases body with
        | error e => intro h; exact absurd rfl h
        | ok d => intro _; rfl
  · cases p with
    | reject e => intro h; simp [fetchBookById] at h
    | response ok status body =>
      cases ok with
      | false => intro h; simp [fetchBookById] at h
      | true =>
        cases body with
        | error e => intro h; simp [fetchBookById] at h
        | ok b => intro _; rfl
  · cases p with
    | reject e => simpa [fetchBookById] using getApiErrorMessageBook_ne_notFound e
    | response ok status body =>
      cases ok with
      | false =>
        simpa [fetchBookById] using getApiErrorMessageBook_ne_notFound (apiError status)
      | true =>
        cases body with
        | error e => simpa [fetchBookById] using getApiErrorMessageBook_ne_notFound e
        | ok b => simp [fetchBookById]
  · intro m hm
    simp [detailEffectResolve, hm]

/-- Witness for C7: a successful lookup pairs its book with a null error, and
    the caller synthesizes the not-found message on an empty success. -/
theorem fetchResultExclusivity_witness :
    (fetchBookById (.response true 200 (.ok (some exBook)))).error = none ∧
    (detailEffectResolve false { fetched := none, fetchError := none, loading := true }
      { book := none, error := none }).fetchError = some notFoundMsg :=
  ⟨(fetchResultExclusivity (.reject { isTypeError := false, isError := false, message := "" })
      (.response true 200 (.ok (some exBook)))
      { fetched := none, fetchError := none, loading := true }
      { book := none, error := none }).2.1 rfl,
   congrArg DetailScreenState.fetchError
     (fetchResultExclusivity (.reject { isTypeError := false, isError := false, message := "" })
       (.response true 200 (.ok (some exBook)))
       { fetched := none, fetchError := none, loading := true }
       { book := none, error := none }).2.2.2.1⟩

/-- Claim C1 (counterexample): the claim fails on the code. The debounced
    search path has no cancellation flag: fetchBooks applies its resolution
    to the Search screen state unconditionally, so a resolved call whose
    originating query (old) no longer matches the current query (new) still
    mutates the externally observable result list. -/
theorem staleSearchResultApplied :
    ¬ (∀ (st : SearchScreenState) (callQuery : String) (o : HttpOutcome SearchBody),
        callQuery ≠ st.query → fetchBooksResolve st o = st) := fun h =>
  absurd (h exStaleState "old" exStaleOutcome (by decide)) (by decide)

/-- Claim C1 (amended): the effects that do capture a cancellation flag at
    call time — the popular-books mount effect and the Detail screen lookup
    effect — apply nothing to any observable state once their cleanup has set
    the flag; the debounced fetchBooks path has no such flag (see the
    counterexample). -/
theorem cancelledFlagSuppressesResolution (st : DetailScreenState)
    (r : LookupFetchResult) (st2 : PopularSectionState) (r2 : SearchFetchResult) :
    detailEffectResolve true st r = st ∧ popularEffectResolve true st2 r2 = st2 := by
  simp [detailEffectResolve, popularEffectResolve]

/-- Claim C4: over any keystroke burst whose consecutive gaps are all under
    the 400-unit quiescence window and whose final text is non-blank, exactly
    one fetchBooks call is issued; it carries the final text and fires 400
    units after the last keystroke (each keystroke's effect cleanup cancels
    the previously scheduled timer). -/
theorem debounceSingleCall (ks : List (Nat × String)) (t : Nat) (s : String)
    (hr : rapid (ks ++ [(t, s)])) (hs : jsTrim s ≠ "") :
    debounceCalls (ks ++ [(t, s)]) = [(t + 400, s)] := by
  revert hr
  induction ks with
  | nil =>
    intro hr
    simp [debounceCalls, hs]
  | cons p ks ih =>
    obtain ⟨t1, s1⟩ := p
    cases ks with
    | nil =>
      intro hr
      have hr2 : t < t1 + 400 ∧ rapid [(t, s)] := hr
      simp [debounceCalls, hs, hr2.1]
    | cons q ks2 =>
      obtain ⟨t2, s2⟩ := q
      intro hr
      have hr2 : t2 < t1 + 400 ∧ rapid (((t2, s2) :: ks2) ++ [(t, s)]) := hr
      simp [debounceCalls, hr2.1]
      simpa using ih hr2.2

/-- Witness for C4: two keystrokes 300 units apart produce exactly the one
    call for the final text at 700. -/
theorem debounceSingleCall_witness :
    debounceCalls ([(0, "har")] ++ [(300, "harry")]) = [(700, "harry")] :=
  debounceSingleCall [(0, "har")] 300 "harry" ⟨by omega, trivial⟩ (by decide)

/-- Blank keystrokes never schedule a call. -/
theorem debounceCalls_all_blank : ∀ ks : List (Nat × String),
    (∀ p ∈ ks, jsTrim p.2 = "") → debounceCalls ks = []
  | [], _ => rfl
  | [(t, s)], h => by simp [debounceCalls, h (t, s) (by simp)]
  | (t1, s1) :: (t2, s2) :: rest, h => by
    have h1 : jsTrim s1 = "" := h (t1, s1) (by simp)
    have h2 := debounceCalls_all_blank ((t2, s2) :: rest)
      (fun p hp => h p (List.mem_cons_of_mem _ hp))
    simp [debounceCalls, h1, h2]

/-- Claim C8: on empty or whitespace-only query text the controller clears
    the result list immediately and schedules no timer, and a keystroke
    sequence of blank texts dispatches zero search calls. -/
theorem whitespaceQueryNoDispatch (st : DebounceState) (now : Nat) (q : String)
    (ks : List (Nat × String)) (hq : jsTrim q = "")
    (hks : ∀ p ∈ ks, jsTrim p.2 = "") :
    debounceEffectStep st now q = { books := [], timer := none } ∧
    debounceCalls ks = [] :=
  ⟨by simp [debounceEffectStep, hq], debounceCalls_all_blank ks hks⟩

/-- Witness for C8: a whitespace query clears results and whitespace
    keystrokes produce no calls. -/
theorem whitespaceQueryNoDispatch_witness :
    debounceEffectStep { books := [exBook], timer := some (100, "x") } 5 "  " =
      { books := [], timer := none } ∧
    debounceCalls [(0, " "), (10, "")] = [] :=
  whitespaceQueryNoDispatch { books := [exBook], timer := some (100, "x") } 5 "  "
    [(0, " "), (10, "")] (by decide) (by decide)

/-- Claim C10: a thumbnail or smallThumbnail link that begins with the http
    scheme reaches the image renderer with that first occurrence upgraded to
    https, both in the search result rows and on the detail screen, and a
    book with no image links yields no URL at either site (the placeholder is
    shown instead). -/
theorem thumbnailHttpsUpgrade (L : BookImageLinks) (v : BookVolumeInfo)
    (rest : String) (hv : v.imageLinks = some L) :
    (L.thumbnail = some ("http://" ++ rest) →
      bookRowImageUrl v = some ("https://" ++ rest) ∧
      detailDisplayedImageUrl v = some ("https://" ++ rest)) ∧
    (L.thumbnail = none → L.smallThumbnail = some ("http://" ++ rest) →
      bookRowImageUrl v = some ("https://" ++ rest) ∧
      detailDisplayedImageUrl v = some ("https://" ++ rest)) ∧
    (∀ w : BookVolumeInfo, w.imageLinks = none →
      bookRowImageUrl w = none ∧ detailDisplayedImageUrl w = none) := by
  refine ⟨fun ht => ⟨?_, ?_⟩, fun ht hsm => ⟨?_, ?_⟩, fun w hw => ⟨?_, ?_⟩⟩
  · simp [bookRowImageUrl, bookRowThumbnail, hv, ht, jsReplaceFirst_http,
      jsOr, jsTruthy_https]
  · simp [detailDisplayedImageUrl, detailImageUrl, detailThumbnail, hv, ht,
      Option.or, jsReplaceFirst_http, jsTruthy_https]
  · simp [bookRowImageUrl, bookRowThumbnail, hv, ht, hsm, jsReplaceFirst_http,
      jsOr, jsTruthy, jsTruthy_https, https_ne_empty]
  · simp [detailDisplayedImageUrl, detailImageUrl, detailThumbnail, hv, ht, hsm,
      Option.or, jsReplaceFirst_http, jsTruthy_https]
  · simp [bookRowImageUrl, bookRowThumbnail, hw, jsOr, jsTruthy]
  · simp [detailDisplayedImageUrl, detailImageUrl, detailThumbnail, hw, jsTruthy]

/-- Witness for C10 at a concrete http thumbnail. -/
theorem thumbnailHttpsUpgrade_witness :
    bookRowImageUrl
      { title := "T", imageLinks := some { thumbnail := some ("http://" ++ "x") } } =
      some ("https://" ++ "x") :=
  ((thumbnailHttpsUpgrade { thumbnail := some ("http://" ++ "x") }
    { title := "T", imageLinks := some { thumbnail := some ("http://" ++ "x") } }
    "x" rfl).1 rfl).1
